import Mathlib

/-!
Shallow embedding of the wyerd.net service worker (src/sw.js): the failover
request forwarder (`handleApiRequest`), the fetch interception boundary,
and the activation cache-cleanup flow. Network effects are modelled by an
oracle mapping each derived backend request to its attempt outcome; promise
rejection of a cache deletion is modelled by a per-name outcome function.
-/

set_option autoImplicit false

namespace WyerdSW

/-- Configured cache namespace label (`CACHE_NAME` in sw.js). -/
def CACHE_NAME : String := "wyerd-crm-v2"

/-- Preferred backend base URL (`PRIMARY_BACKEND`). -/
def PRIMARY_BACKEND : String :=
  "https://expert-fishstick-7vwj9x9vj6r93wqqp-5173.app.github.dev"

/-- Ordered fallback backend base URLs (`FALLBACK_BACKENDS`). -/
def FALLBACK_BACKENDS : List String :=
  ["https://expert-fishstick-7vwj9x9vj6r93wqqp-5000.app.github.dev",
   "https://facilitate-dim-insight-writes.trycloudflare.com"]

/-- The ordered candidate list built at the top of `handleApiRequest`:
primary first, then the fallbacks, in configured order. -/
def backendUrls : List String := PRIMARY_BACKEND :: FALLBACK_BACKENDS

/-- JavaScript `String.prototype.startsWith`: `pat` is a prefix of `s`. -/
def strStartsWith (s pat : String) : Bool :=
  s.toList.take pat.length == pat.toList

/-- JavaScript `String.prototype.includes`: `pat` occurs as a contiguous
substring of `s`. -/
def strIncludes (s pat : String) : Bool :=
  (List.range (s.length + 1)).any
    (fun i => (s.toList.drop i).take pat.length == pat.toList)

/-- The sw.js test `backendUrl.includes('app.github.dev')` deciding whether a
candidate keeps its natural origin. -/
def isNaturalOrigin (backendUrl : String) : Bool :=
  strIncludes backendUrl "app.github.dev"

/-- Header-name normalization of the Headers API (names are case-insensitive,
stored lowercased): lowercase character by character. -/
def hnorm (k : String) : String := String.mk (k.toList.map Char.toLower)

/-- `Headers.get`: value of the first entry with the normalized name. -/
def hget : List (String × String) → String → Option String
  | [], _ => none
  | p :: rest, k => if p.1 = hnorm k then some p.2 else hget rest k

/-- `Headers.set`: replace the entry with the normalized name, or append it. -/
def hset : List (String × String) → String → String → List (String × String)
  | [], k, v => [(hnorm k, v)]
  | p :: rest, k, v =>
    if p.1 = hnorm k then (hnorm k, v) :: rest else p :: hset rest k v

/-- `Headers.delete`: drop every entry with the normalized name. -/
def hdelete : List (String × String) → String → List (String × String)
  | [], _ => []
  | p :: rest, k => if p.1 = hnorm k then hdelete rest k else p :: hdelete rest k

/-- The copy loop of sw.js lines 91-96: a fresh `Headers` object populated by
`set(key, value)` over the original request headers in order. -/
def headersFromEntries (entries : List (String × String)) : List (String × String) :=
  entries.foldl (fun acc p => hset acc p.1 p.2) []

/-- An intercepted request as the forwarder reads it: method, URL path and
query string, header entries, and the body text `request.clone().text()`
would yield. -/
structure SWRequest where
  method : String
  pathname : String
  search : String
  headers : List (String × String)
  bodyText : String
  deriving Repr, DecidableEq

/-- The derived per-candidate request built at sw.js lines 108-114. -/
structure BackendRequest where
  url : String
  method : String
  headers : List (String × String)
  body : Option String
  credentials : String
  mode : String
  deriving Repr, DecidableEq

/-- Header adaptation of sw.js lines 91-106: copy the original headers, then
strip `Origin` for a natural-origin (Codespace) candidate, otherwise force
`Origin: https://wyerd.net`. -/
def buildRequestHeaders (entries : List (String × String)) (backendUrl : String) :
    List (String × String) :=
  let requestHeaders := headersFromEntries entries
  if isNaturalOrigin backendUrl then hdelete requestHeaders "Origin"
  else hset requestHeaders "Origin" "https://wyerd.net"

/-- sw.js lines 87-114: the full derived request for one candidate. -/
def buildBackendRequest (req : SWRequest) (backendUrl : String) : BackendRequest :=
  { url := backendUrl ++ req.pathname ++ req.search
    method := req.method
    headers := buildRequestHeaders req.headers backendUrl
    body := if req.method ≠ "GET" ∧ req.method ≠ "HEAD" then some req.bodyText else none
    credentials := "include"
    mode := "cors" }

/-- Outcome of one backend attempt: either an HTTP response (any status, body
already read as text) or a transport-level failure (network error, timeout
abort, CORS rejection) carrying the thrown error message when it has one. -/
inductive AttemptResult where
  | response (status : Nat) (statusText : String) (body : String)
  | failure (message : Option String)
  deriving Repr, DecidableEq

/-- Structured content of the all-backends-failed 503 JSON body
(sw.js lines 160-171). -/
structure AllFailedBody where
  error : String
  message : String
  backends : List String
  lastError : String
  solutions : List String
  timestamp : String
  deriving Repr, DecidableEq

/-- Body of a response the worker returns: a backend body passed through as
text, the structured 503 payload, or the boundary's 500 payload
(`error` label plus the fault's message, absent when the fault had none). -/
inductive RespBody where
  | text (s : String)
  | allFailed (b : AllFailedBody)
  | internalFault (error : String) (message : Option String)
  deriving Repr, DecidableEq

/-- A response as constructed by the worker. -/
structure SWResponse where
  status : Nat
  statusText : String
  body : RespBody
  headers : List (String × String)
  deriving Repr, DecidableEq

/-- The fixed header object of the success path (sw.js lines 134-140). -/
def successHeaders : List (String × String) :=
  [("Content-Type", "application/json"),
   ("Access-Control-Allow-Origin", "https://wyerd.net"),
   ("Access-Control-Allow-Methods", "GET, POST, PUT, DELETE, OPTIONS"),
   ("Access-Control-Allow-Headers", "Content-Type, Authorization, X-Requested-With"),
   ("Access-Control-Allow-Credentials", "true")]

/-- JavaScript `lastError?.message || 'Unknown error'`: `lastError` may still
be `null` (no failure recorded), its `message` may be `undefined`, and an
empty message string is falsy; all three give the fallback string. -/
def messageOr : Option (Option String) → String
  | some (some s) => if s = "" then "Unknown error" else s
  | _ => "Unknown error"

/-- Result of the candidate loop, instrumented with the list of candidates
actually attempted, in order. -/
inductive LoopResult where
  | success (status : Nat) (statusText : String) (body : String)
      (attempted : List String)
  | allFailed (lastError : Option (Option String)) (attempted : List String)
  deriving Repr, DecidableEq

/-- The candidate loop of sw.js lines 84-153: try each backend in order;
return on the first attempt that yields an HTTP response; on a failure record
it as `lastError` and continue. `oracle` maps each derived request to its
attempt outcome. -/
def tryLoop (req : SWRequest) (oracle : BackendRequest → AttemptResult) :
    List String → Option (Option String) → LoopResult
  | [], lastError => .allFailed lastError []
  | u :: rest, _lastError =>
    match oracle (buildBackendRequest req u) with
    | .response s st b => .success s st b [u]
    | .failure m =>
      match tryLoop req oracle rest (some m) with
      | .success s st b att => .success s st b (u :: att)
      | .allFailed le att => .allFailed le (u :: att)

/-- The success-path response (sw.js lines 131-141): backend status and
status text, backend body as text, the fixed header object. -/
def forwardedOk (status : Nat) (statusText body : String) : SWResponse :=
  { status := status, statusText := statusText, body := .text body
    headers := successHeaders }

/-- The all-backends-failed response (sw.js lines 160-178). `now` stands for
`new Date().toISOString()`. -/
def allFailedResponse (lastError : Option (Option String)) (now : String) :
    SWResponse :=
  { status := 503
    statusText := ""
    body := .allFailed
      { error := "All Backends Failed"
        message := "Unable to connect to any backend server. Check if development server is running."
        backends := backendUrls
        lastError := messageOr lastError
        solutions :=
          ["Start dev server: npm run dev (port 5173)",
           "Start backend: node server.js (http://localhost:5000)",
           "Check CORS configuration",
           "Verify MongoDB connection"]
        timestamp := now }
    headers := [("Content-Type", "application/json"),
                ("Access-Control-Allow-Origin", "*")] }

/-- `handleApiRequest` (sw.js lines 71-179) over the attempt oracle, paired
with the list of candidates attempted. -/
def handleApiRequest (req : SWRequest) (oracle : BackendRequest → AttemptResult)
    (now : String) : SWResponse × List String :=
  match tryLoop req oracle backendUrls none with
  | .success s st b att => (forwardedOk s st b, att)
  | .allFailed le att => (allFailedResponse le now, att)

/-- The `.catch` boundary of sw.js lines 50-61 around `handleApiRequest`: a
resolved promise passes through; a rejection becomes a 500 JSON response
carrying the fault's message. -/
def apiBoundary (result : Except (Option String) SWResponse) : SWResponse :=
  match result with
  | .ok r => r
  | .error m =>
    { status := 500, statusText := ""
      body := .internalFault "API request failed" m
      headers := [("Content-Type", "application/json")] }

/-- What the fetch listener does with an intercepted request. -/
inductive FetchOutcome where
  | responded (r : SWResponse)
  | passthrough (req : SWRequest)
  deriving Repr, DecidableEq

/-- The fetch listener (sw.js lines 42-68): requests whose path starts with
/api/ are answered by the guarded forwarder (`apiResult` is the promise
`handleApiRequest` produced, possibly a rejection); all others are fetched
unmodified. -/
def onFetch (req : SWRequest) (apiResult : Except (Option String) SWResponse) :
    FetchOutcome :=
  if strStartsWith req.pathname "/api/" then .responded (apiBoundary apiResult)
  else .passthrough req

/-- Outcome of one `caches.delete(name)` promise: resolved with a boolean, or
rejected with an error message. -/
inductive DeleteOutcome where
  | resolved (b : Bool)
  | rejected (message : String)
  deriving Repr, DecidableEq

/-- sw.js line 32: the names scheduled for deletion during activation. -/
def cachesToDelete (cacheNames : List String) : List String :=
  cacheNames.filter (fun n => n ≠ CACHE_NAME)

/-- `Promise.all` over the deletion promises resolves exactly when every one
of them resolved. -/
def promiseAllResolved (outcomes : List DeleteOutcome) : Bool :=
  outcomes.all (fun o => match o with | .resolved _ => true | .rejected _ => false)

/-- The activation flow (sw.js lines 28-38): `.map` initiates a delete for
every stale name; `clients.claim()` runs only if the `Promise.all` over those
deletions resolved. Returns the deletions initiated and whether claim ran. -/
def activateRun (cacheNames : List String) (del : String → DeleteOutcome) :
    List String × Bool :=
  let targets := cachesToDelete cacheNames
  (targets, promiseAllResolved (targets.map del))

/-- Sample in-scope request used by the witnesses. -/
def reqEx : SWRequest :=
  { method := "GET", pathname := "/api/x", search := "", headers := [],
    bodyText := "" }

/-- Oracle where every backend answers 200. -/
def oracleAll200 : BackendRequest → AttemptResult :=
  fun _ => .response 200 "OK" "ok"

/-- Oracle where every backend answers 500. -/
def oracleAll500 : BackendRequest → AttemptResult :=
  fun _ => .response 500 "Internal Server Error" "boom"

/-- Oracle where the primary candidate fails at transport level and every
other candidate answers 200. -/
def oraclePrimaryDown : BackendRequest → AttemptResult :=
  fun br =>
    if br.url = PRIMARY_BACKEND ++ "/api/x" then .failure (some "net down")
    else .response 200 "OK" "ok"

/-- Oracle where every attempt fails at transport level with a distinct
message per candidate. -/
def oracleAllFail : BackendRequest → AttemptResult :=
  fun br =>
    if br.url = PRIMARY_BACKEND ++ "/api/x" then .failure (some "e1")
    else if br.url = "https://expert-fishstick-7vwj9x9vj6r93wqqp-5000.app.github.dev/api/x" then
      .failure (some "e2")
    else .failure (some "timeout after 10000ms")

/-- Deletion-outcome function where one stale cache's deletion rejects. -/
def delOneRejects : String → DeleteOutcome :=
  fun n => if n = "old-cache" then .rejected "storage failure" else .resolved true

/-- Sample in-scope POST request with a body. -/
def reqPost : SWRequest :=
  { method := "POST", pathname := "/api/items", search := "?v=1",
    headers := [("content-type", "application/json")], bodyText := "payload" }

/-- Sample out-of-scope request (a static asset). -/
def reqAsset : SWRequest :=
  { method := "GET", pathname := "/assets/logo.png", search := "", headers := [],
    bodyText := "" }

/-- Observation helper: the `lastError` field of an all-failed body, when the
body is one. -/
def bodyLastError : RespBody → Option String
  | .allFailed b => some b.lastError
  | _ => none

/-- If every candidate before `u` fails at transport level and `u` yields an
HTTP response, the loop returns that response having attempted exactly the
failing candidates followed by `u`. -/
theorem tryLoop_first_responder (req : SWRequest)
    (oracle : BackendRequest → AttemptResult)
    (l1 : List String) (u : String) (l2 : List String)
    (s : Nat) (st b : String)
    (hresp : oracle (buildBackendRequest req u) = .response s st b) :
    ∀ le, (∀ v ∈ l1, ∃ m, oracle (buildBackendRequest req v) = .failure m) →
      tryLoop req oracle (l1 ++ u :: l2) le = .success s st b (l1 ++ [u]) := by
  induction l1 with
  | nil => intro le _; simp [tryLoop, hresp]
  | cons v t ih =>
    intro le hfail
    obtain ⟨m, hm⟩ := hfail v (by simp)
    have ht := ih (some m) (fun w hw => hfail w (by simp [hw]))
    simp [tryLoop, hm, ht]

/-- C1: for every in-scope request, if candidate N of the ordered candidate
list is the first whose attempt yields an HTTP response, the forwarding
operation returns a response whose status and body equal candidate N's, and
the candidates attempted are exactly the first N, in order — none after N. -/
theorem forward_first_responder (req : SWRequest)
    (oracle : BackendRequest → AttemptResult) (now : String)
    (l1 : List String) (u : String) (l2 : List String)
    (s : Nat) (st b : String)
    (hsplit : backendUrls = l1 ++ u :: l2)
    (hfail : ∀ v ∈ l1, ∃ m, oracle (buildBackendRequest req v) = .failure m)
    (hresp : oracle (buildBackendRequest req u) = .response s st b) :
    (handleApiRequest req oracle now).1.status = s ∧
    (handleApiRequest req oracle now).1.statusText = st ∧
    (handleApiRequest req oracle now).1.body = .text b ∧
    (handleApiRequest req oracle now).2 = l1 ++ [u] := by
  have h := tryLoop_first_responder req oracle l1 u l2 s st b hresp none hfail
  simp [handleApiRequest, hsplit, h, forwardedOk]

/-- Witness for C1: with every backend answering 200, the primary wins and is
the only candidate attempted. -/
theorem forward_first_responder_witness :
    (handleApiRequest reqEx oracleAll200 "2025-11-19").1.status = 200 ∧
    (handleApiRequest reqEx oracleAll200 "2025-11-19").1.statusText = "OK" ∧
    (handleApiRequest reqEx oracleAll200 "2025-11-19").1.body = .text "ok" ∧
    (handleApiRequest reqEx oracleAll200 "2025-11-19").2 = [PRIMARY_BACKEND] :=
  forward_first_responder reqEx oracleAll200 "2025-11-19"
    [] PRIMARY_BACKEND FALLBACK_BACKENDS 200 "OK" "ok" rfl (by simp) rfl

/-- C2: an HTTP response with an error status from the current candidate is
terminal — the final status equals that error status and no later candidate
is attempted; only a transport-level failure advances iteration to the next
candidate. -/
theorem error_status_is_terminal (req : SWRequest)
    (oracle : BackendRequest → AttemptResult) (now : String) :
    (∀ s st b, oracle (buildBackendRequest req PRIMARY_BACKEND) = .response s st b →
      (handleApiRequest req oracle now).1.status = s ∧
      (handleApiRequest req oracle now).1.body = .text b ∧
      (handleApiRequest req oracle now).2 = [PRIMARY_BACKEND]) ∧
    (∀ m s st b, oracle (buildBackendRequest req PRIMARY_BACKEND) = .failure m →
      oracle (buildBackendRequest req
        "https://expert-fishstick-7vwj9x9vj6r93wqqp-5000.app.github.dev") =
        .response s st b →
      (handleApiRequest req oracle now).1.status = s ∧
      (handleApiRequest req oracle now).2 =
        [PRIMARY_BACKEND,
         "https://expert-fishstick-7vwj9x9vj6r93wqqp-5000.app.github.dev"]) := by
  constructor
  · intro s st b h
    simp [handleApiRequest, backendUrls, tryLoop, h, forwardedOk]
  · intro m s st b h1 h2
    simp [handleApiRequest, backendUrls, FALLBACK_BACKENDS, tryLoop, h1, h2,
      forwardedOk]

/-- Witness for C2: a primary answering 500 is returned with no fallback
tried; a primary that is down advances to the second candidate. -/
theorem error_status_is_terminal_witness :
    ((handleApiRequest reqEx oracleAll500 "T").1.status = 500 ∧
     (handleApiRequest reqEx oracleAll500 "T").1.body = .text "boom" ∧
     (handleApiRequest reqEx oracleAll500 "T").2 = [PRIMARY_BACKEND]) ∧
    ((handleApiRequest reqEx oraclePrimaryDown "T").1.status = 200 ∧
     (handleApiRequest reqEx oraclePrimaryDown "T").2 =
       [PRIMARY_BACKEND,
        "https://expert-fishstick-7vwj9x9vj6r93wqqp-5000.app.github.dev"]) :=
  ⟨(error_status_is_terminal reqEx oracleAll500 "T").1
      500 "Internal Server Error" "boom" rfl,
   (error_status_is_terminal reqEx oraclePrimaryDown "T").2
      (some "net down") 200 "OK" "ok" rfl rfl⟩

/-- C3: when every candidate fails at transport level, the forwarder returns
a 503 whose structured body carries the fixed error label, the message, the
full configured candidate list in order, the most recent failure's message as
lastError, the solutions list and the timestamp, with the wildcard
Access-Control-Allow-Origin header. -/
theorem all_failed_503 (req : SWRequest)
    (oracle : BackendRequest → AttemptResult) (now : String)
    (m1 m2 : Option String) (s : String)
    (h1 : oracle (buildBackendRequest req PRIMARY_BACKEND) = .failure m1)
    (h2 : oracle (buildBackendRequest req
      "https://expert-fishstick-7vwj9x9vj6r93wqqp-5000.app.github.dev") =
      .failure m2)
    (h3 : oracle (buildBackendRequest req
      "https://facilitate-dim-insight-writes.trycloudflare.com") =
      .failure (some s))
    (hs : s ≠ "") :
    ∃ body : AllFailedBody,
      (handleApiRequest req oracle now).1.status = 503 ∧
      (handleApiRequest req oracle now).1.body = .allFailed body ∧
      body.error = "All Backends Failed" ∧
      body.message =
        "Unable to connect to any backend server. Check if development server is running." ∧
      body.backends = backendUrls ∧
      body.lastError = s ∧
      body.solutions =
        ["Start dev server: npm run dev (port 5173)",
         "Start backend: node server.js (http://localhost:5000)",
         "Check CORS configuration",
         "Verify MongoDB connection"] ∧
      body.timestamp = now ∧
      ("Access-Control-Allow-Origin", "*") ∈ (handleApiRequest req oracle now).1.headers ∧
      (handleApiRequest req oracle now).2 = backendUrls := by
  have hloop : tryLoop req oracle backendUrls none =
      .allFailed (some (some s)) backendUrls := by
    simp [backendUrls, FALLBACK_BACKENDS, tryLoop, h1, h2, h3]
  refine ⟨{ error := "All Backends Failed"
            message := "Unable to connect to any backend server. Check if development server is running."
            backends := backendUrls
            lastError := s
            solutions :=
              ["Start dev server: npm run dev (port 5173)",
               "Start backend: node server.js (http://localhost:5000)",
               "Check CORS configuration",
               "Verify MongoDB connection"]
            timestamp := now }, ?_⟩
  simp [handleApiRequest, hloop, allFailedResponse, messageOr, hs]

/-- Witness for C3: all three candidates failing yields the 503 with the last
failure's message. -/
theorem all_failed_503_witness :
    ∃ body : AllFailedBody,
      (handleApiRequest reqEx oracleAllFail "T").1.status = 503 ∧
      (handleApiRequest reqEx oracleAllFail "T").1.body = .allFailed body ∧
      body.error = "All Backends Failed" ∧
      body.message =
        "Unable to connect to any backend server. Check if development server is running." ∧
      body.backends = backendUrls ∧
      body.lastError = "timeout after 10000ms" ∧
      body.solutions =
        ["Start dev server: npm run dev (port 5173)",
         "Start backend: node server.js (http://localhost:5000)",
         "Check CORS configuration",
         "Verify MongoDB connection"] ∧
      body.timestamp = "T" ∧
      ("Access-Control-Allow-Origin", "*") ∈ (handleApiRequest reqEx oracleAllFail "T").1.headers ∧
      (handleApiRequest reqEx oracleAllFail "T").2 = backendUrls :=
  all_failed_503 reqEx oracleAllFail "T" (some "e1") (some "e2")
    "timeout after 10000ms" rfl rfl rfl (by decide)

/-- C4: the forwarding routine runs exactly on requests whose path starts
with /api/; every other request is passed through as the original request,
untouched by the forwarder. -/
theorem forwarding_iff_api_path (req : SWRequest)
    (apiResult : Except (Option String) SWResponse) :
    (strStartsWith req.pathname "/api/" = true →
      onFetch req apiResult = .responded (apiBoundary apiResult)) ∧
    (strStartsWith req.pathname "/api/" = false →
      onFetch req apiResult = .passthrough req) ∧
    (onFetch req apiResult = .passthrough req ↔
      strStartsWith req.pathname "/api/" = false) := by
  refine ⟨fun h => by simp [onFetch, h], fun h => by simp [onFetch, h], ?_⟩
  cases hb : strStartsWith req.pathname "/api/" <;> simp [onFetch, hb]

/-- Witness for C4: /api/x is forwarded, /assets/logo.png passes through. -/
theorem forwarding_iff_api_path_witness :
    onFetch reqEx (Except.ok (forwardedOk 200 "OK" "ok")) =
      .responded (apiBoundary (Except.ok (forwardedOk 200 "OK" "ok"))) ∧
    onFetch reqAsset (Except.ok (forwardedOk 200 "OK" "ok")) = .passthrough reqAsset :=
  ⟨(forwarding_iff_api_path reqEx _).1 (by decide),
   (forwarding_iff_api_path reqAsset _).2.1 (by decide)⟩

/-- C5: a rejection from the forwarding routine is converted at the boundary
into a 500 JSON response carrying the error label and the fault's message; a
resolved response passes through unchanged; every input yields a well-formed
response object. -/
theorem boundary_converts_faults (m : Option String) (r : SWResponse)
    (result : Except (Option String) SWResponse) :
    apiBoundary (Except.error m) =
      { status := 500, statusText := ""
        body := .internalFault "API request failed" m
        headers := [("Content-Type", "application/json")] } ∧
    apiBoundary (Except.ok r) = r ∧
    (∃ resp : SWResponse, apiBoundary result = resp) :=
  ⟨rfl, rfl, ⟨apiBoundary result, rfl⟩⟩

/-- C8: the derived per-candidate request targets the candidate base plus the
original path and query, keeps the method, includes credentials, enables CORS
mode, and carries the original body text exactly for methods other than GET
and HEAD. -/
theorem derived_request_shape (req : SWRequest) (u : String) :
    (buildBackendRequest req u).url = u ++ req.pathname ++ req.search ∧
    (buildBackendRequest req u).method = req.method ∧
    (buildBackendRequest req u).credentials = "include" ∧
    (buildBackendRequest req u).mode = "cors" ∧
    (req.method ≠ "GET" ∧ req.method ≠ "HEAD" →
      (buildBackendRequest req u).body = some req.bodyText) ∧
    (req.method = "GET" ∨ req.method = "HEAD" →
      (buildBackendRequest req u).body = none) := by
  refine ⟨rfl, rfl, rfl, rfl, fun h => by simp [buildBackendRequest, h.1, h.2], ?_⟩
  rintro (h | h) <;> simp [buildBackendRequest, h]

/-- Witness for C8: a POST carries its body text, a GET sends none, and the
target URL is the concatenation. -/
theorem derived_request_shape_witness :
    (buildBackendRequest reqPost PRIMARY_BACKEND).body = some "payload" ∧
    (buildBackendRequest reqEx PRIMARY_BACKEND).body = none ∧
    (buildBackendRequest reqPost PRIMARY_BACKEND).url =
      PRIMARY_BACKEND ++ "/api/items" ++ "?v=1" ∧
    (buildBackendRequest reqPost PRIMARY_BACKEND).credentials = "include" ∧
    (buildBackendRequest reqPost PRIMARY_BACKEND).mode = "cors" :=
  ⟨(derived_request_shape reqPost PRIMARY_BACKEND).2.2.2.2.1
      ⟨by decide, by decide⟩,
   (derived_request_shape reqEx PRIMARY_BACKEND).2.2.2.2.2 (Or.inl rfl),
   (derived_request_shape reqPost PRIMARY_BACKEND).1,
   (derived_request_shape reqPost PRIMARY_BACKEND).2.2.1,
   (derived_request_shape reqPost PRIMARY_BACKEND).2.2.2.1⟩

/-- Setting a header makes it readable back. -/
theorem hget_hset_self (hs : List (String × String)) (k v : String) :
    hget (hset hs k v) k = some v := by
  induction hs with
  | nil => simp [hset, hget]
  | cons p rest ih =>
    by_cases h : p.1 = hnorm k <;> simp [hset, hget, h, ih]

/-- Setting a header leaves differently-named headers unread. -/
theorem hget_hset_other (hs : List (String × String)) (k v k' : String)
    (hk : hnorm k' ≠ hnorm k) : hget (hset hs k v) k' = hget hs k' := by
  induction hs with
  | nil => simp [hset, hget, Ne.symm hk]
  | cons p rest ih =>
    by_cases h : p.1 = hnorm k
    · simp [hset, hget, h, Ne.symm hk]
    · simp [hset, hget, h, ih]

/-- Deleting a header removes it. -/
theorem hget_hdelete_self (hs : List (String × String)) (k : String) :
    hget (hdelete hs k) k = none := by
  induction hs with
  | nil => simp [hdelete, hget]
  | cons p rest ih =>
    by_cases h : p.1 = hnorm k <;> simp [hdelete, hget, h, ih]

/-- Deleting a header leaves differently-named headers unread. -/
theorem hget_hdelete_other (hs : List (String × String)) (k k' : String)
    (hk : hnorm k' ≠ hnorm k) : hget (hdelete hs k) k' = hget hs k' := by
  induction hs with
  | nil => simp [hdelete, hget]
  | cons p rest ih =>
    by_cases h : p.1 = hnorm k
    · simp [hdelete, hget, h, Ne.symm hk, ih]
    · simp [hdelete, hget, h, ih]

/-- C6: for a natural-origin candidate the derived request carries no origin
header; for any other candidate its origin header is the canonical
application origin; every other header reads exactly as in the copied
original headers. -/
theorem origin_header_adaptation (entries : List (String × String)) (u : String) :
    (isNaturalOrigin u = true →
      hget (buildRequestHeaders entries u) "Origin" = none) ∧
    (isNaturalOrigin u = false →
      hget (buildRequestHeaders entries u) "Origin" = some "https://wyerd.net") ∧
    (∀ k, hnorm k ≠ "origin" →
      hget (buildRequestHeaders entries u) k = hget (headersFromEntries entries) k) := by
  have horg : hnorm "Origin" = "origin" := by decide
  refine ⟨fun h => ?_, fun h => ?_, fun k hk => ?_⟩
  · simp only [buildRequestHeaders, h, if_true]
    exact hget_hdelete_self _ "Origin"
  · simp only [buildRequestHeaders, h, Bool.false_eq_true, if_false]
    exact hget_hset_self _ "Origin" "https://wyerd.net"
  · have hk' : hnorm k ≠ hnorm "Origin" := by rw [horg]; exact hk
    by_cases h : isNaturalOrigin u
    · simp only [buildRequestHeaders, h, if_true]
      exact hget_hdelete_other _ "Origin" k hk'
    · simp only [buildRequestHeaders, h, if_false]
      exact hget_hset_other _ "Origin" "https://wyerd.net" k hk'

/-- Witness for C6: the Codespace primary gets no origin header, the
cloudflare fallback gets the forced one, and an unrelated header survives. -/
theorem origin_header_adaptation_witness :
    hget (buildRequestHeaders [("accept", "text/html")] PRIMARY_BACKEND)
      "Origin" = none ∧
    hget (buildRequestHeaders [("accept", "text/html")]
      "https://facilitate-dim-insight-writes.trycloudflare.com")
      "Origin" = some "https://wyerd.net" ∧
    hget (buildRequestHeaders [("accept", "text/html")] PRIMARY_BACKEND)
      "accept" =
      hget (headersFromEntries [("accept", "text/html")]) "accept" :=
  ⟨(origin_header_adaptation [("accept", "text/html")] PRIMARY_BACKEND).1
      (by decide),
   (origin_header_adaptation [("accept", "text/html")]
      "https://facilitate-dim-insight-writes.trycloudflare.com").2.1
      (by decide),
   (origin_header_adaptation [("accept", "text/html")] PRIMARY_BACKEND).2.2
      "accept" (by decide)⟩

/-- A nonempty string has positive length. -/
theorem length_pos_of_ne_empty (s : String) (h : s ≠ "") : 0 < s.length := by
  rcases s with ⟨data⟩
  cases data with
  | nil => exact absurd rfl h
  | cons c cs => simp [String.length]

/-- C9 counterexample: with stale cache old-cache whose deletion promise
rejects, the deletion is initiated yet the Promise.all rejection skips
clients.claim, so claiming control does not still happen. -/
theorem activation_claim_skipped :
    delOneRejects "old-cache" = .rejected "storage failure" ∧
    (activateRun ["old-cache", "wyerd-crm-v2"] delOneRejects).1 = ["old-cache"] ∧
    (activateRun ["old-cache", "wyerd-crm-v2"] delOneRejects).2 = false := by
  refine ⟨rfl, ?_, ?_⟩ <;> decide

/-- C9 amended: every stored namespace other than the current one has its
deletion initiated, which deletions are initiated does not depend on any
deletion's outcome, the current namespace is never deleted, and claiming
control runs exactly when every initiated deletion resolved — a single
rejected deletion skips it. -/
theorem activation_deletes_independent (cacheNames : List String)
    (del del' : String → DeleteOutcome) :
    (activateRun cacheNames del).1 = (activateRun cacheNames del').1 ∧
    (∀ n ∈ cacheNames, n ≠ CACHE_NAME → n ∈ (activateRun cacheNames del).1) ∧
    CACHE_NAME ∉ (activateRun cacheNames del).1 ∧
    ((activateRun cacheNames del).2 = true ↔
      ∀ n ∈ (activateRun cacheNames del).1, ∃ b, del n = .resolved b) := by
  refine ⟨rfl, ?_, ?_, ?_⟩
  · intro n hn hne
    simp [activateRun, cachesToDelete, List.mem_filter, hn, hne]
  · simp [activateRun, cachesToDelete, List.mem_filter]
  · simp only [activateRun, promiseAllResolved, List.all_eq_true, List.mem_map]
    constructor
    · rintro h n hn
      have := h (del n) ⟨n, hn, rfl⟩
      cases hd : del n with
      | resolved b => exact ⟨b, rfl⟩
      | rejected m => rw [hd] at this; simp at this
    · rintro h o ⟨n, hn, rfl⟩
      obtain ⟨b, hb⟩ := h n hn
      rw [hb]

/-- Witness for C9 amended: with every deletion resolving, the stale cache is
deleted and claim runs. -/
theorem activation_deletes_independent_witness :
    "old-cache" ∈ (activateRun ["old-cache", "wyerd-crm-v2"]
      (fun _ => DeleteOutcome.resolved true)).1 ∧
    (activateRun ["old-cache", "wyerd-crm-v2"]
      (fun _ => DeleteOutcome.resolved true)).2 = true := by
  have h := activation_deletes_independent ["old-cache", "wyerd-crm-v2"]
    (fun _ => DeleteOutcome.resolved true) (fun _ => DeleteOutcome.resolved true)
  exact ⟨h.2.1 "old-cache" (by simp) (by decide),
         h.2.2.2.mpr (fun n _ => ⟨true, rfl⟩)⟩

/-- C10: the lastError field of the all-failed body is always a nonempty
string; when no failure message is available (no failure recorded, a message
of undefined, or an empty message) it is the fallback Unknown error. -/
theorem lastError_never_empty (le : Option (Option String)) (now : String) :
    (∃ s, bodyLastError (allFailedResponse le now).body = some s ∧ 0 < s.length) ∧
    bodyLastError (allFailedResponse none now).body = some "Unknown error" ∧
    bodyLastError (allFailedResponse (some none) now).body = some "Unknown error" ∧
    bodyLastError (allFailedResponse (some (some "")) now).body =
      some "Unknown error" := by
  refine ⟨⟨messageOr le, rfl, ?_⟩, rfl, rfl, rfl⟩
  match le with
  | none => decide
  | some none => decide
  | some (some s) =>
    by_cases hs : s = ""
    · simp only [messageOr, hs, if_pos]; decide
    · simpa [messageOr, hs] using length_pos_of_ne_empty s hs

/-- C7: a successful forwarding outcome mirrors the chosen backend response's
status and status text and carries exactly the fixed Content-Type header plus
the four CORS headers, whatever headers the backend sent. -/
theorem success_response_headers (req : SWRequest)
    (oracle : BackendRequest → AttemptResult) (now : String)
    (l1 : List String) (u : String) (l2 : List String)
    (s : Nat) (st b : String)
    (hsplit : backendUrls = l1 ++ u :: l2)
    (hfail : ∀ v ∈ l1, ∃ m, oracle (buildBackendRequest req v) = .failure m)
    (hresp : oracle (buildBackendRequest req u) = .response s st b) :
    (handleApiRequest req oracle now).1 =
      { status := s, statusText := st, body := .text b
        headers := [("Content-Type", "application/json"),
                    ("Access-Control-Allow-Origin", "https://wyerd.net"),
                    ("Access-Control-Allow-Methods", "GET, POST, PUT, DELETE, OPTIONS"),
                    ("Access-Control-Allow-Headers", "Content-Type, Authorization, X-Requested-With"),
                    ("Access-Control-Allow-Credentials", "true")] } := by
  have h := tryLoop_first_responder req oracle l1 u l2 s st b hresp none hfail
  simp [handleApiRequest, hsplit, h, forwardedOk, successHeaders]

/-- Witness for C7: the second candidate wins after the primary fails; its
status and status text are mirrored and the header object is the fixed one. -/
theorem success_response_headers_witness :
    (handleApiRequest reqEx oraclePrimaryDown "T").1 =
      { status := 200, statusText := "OK", body := .text "ok"
        headers := [("Content-Type", "application/json"),
                    ("Access-Control-Allow-Origin", "https://wyerd.net"),
                    ("Access-Control-Allow-Methods", "GET, POST, PUT, DELETE, OPTIONS"),
                    ("Access-Control-Allow-Headers", "Content-Type, Authorization, X-Requested-With"),
                    ("Access-Control-Allow-Credentials", "true")] } :=
  success_response_headers reqEx oraclePrimaryDown "T"
    [PRIMARY_BACKEND] "https://expert-fishstick-7vwj9x9vj6r93wqqp-5000.app.github.dev"
    ["https://facilitate-dim-insight-writes.trycloudflare.com"]
    200 "OK" "ok" rfl
    (by
      intro v hv
      simp only [List.mem_singleton] at hv
      exact ⟨some "net down", by rw [hv]; exact rfl⟩)
    rfl

end WyerdSW
